import Mathlib

/-!
# Verification of the quiz-generator client session state machine

Shallow embedding of `src/frontend/script.js`: the `appState` object, the
file-upload filter (`addFiles`), the generation handler (`generateQuiz`),
question display (`displayQuestion`), answer recording (`saveAnswer`),
navigation (`previousQuestion` / `nextQuestion`), retake (`retakeQuiz`) and
export (`downloadQuiz`).

DOM rendering and styling is not modelled except for the observable artefacts
the claims are about: the user-visible messages (`showError` / `showSuccess`
calls become `UIMessage` values) and the `checked` computation of the
multiple-choice option restore (`mcOptionChecked`).  Exceptions that JavaScript
would raise (property access on `null` / `undefined`) are modelled with
`Except JSError`; code inside the `try` of `generateQuiz` has its errors
caught, matching the source.  The asynchronous `fetch` result is passed in as
an explicit `GenResult` parameter, and the values of the answer widgets read
by `saveAnswer` from the DOM are passed in as an explicit `PendingInput`
parameter.
-/

namespace QuizGen

/-- A JavaScript runtime value as far as the answer map and the strict-equality
comparisons in `displayQuestion` are concerned: the DOM yields strings, the
option template index is a number. -/
inductive JSValue where
  | str : String → JSValue
  | num : Int → JSValue
deriving DecidableEq, Repr

/-- JavaScript strict equality (`===`) restricted to the value forms above:
operands of different types are never equal, no coercion happens. -/
def jsStrictEq : JSValue → JSValue → Bool
  | .str a, .str b => a == b
  | .num a, .num b => a == b
  | _, _ => false

/-- Whether a `JSValue` is a string. -/
def JSValue.isStr : JSValue → Bool
  | .str _ => true
  | .num _ => false

/-- An uncaught JavaScript exception (property access on `null`/`undefined`). -/
inductive JSError where
  | typeError : String → JSError
deriving DecidableEq, Repr

/-- `error.message`, read by the `catch` block of `generateQuiz`. -/
def JSError.message : JSError → String
  | .typeError m => m

/-- A user-visible message, produced by `showError` / `showSuccess`. -/
inductive UIMessage where
  | error : String → UIMessage
  | success : String → UIMessage
deriving DecidableEq, Repr

/-- A question as delivered by the backend (`data.quiz` elements): fields
`type`, `question`, `options`, `explanation` read by `displayQuestion`. -/
structure Question where
  type : String
  question : String
  options : List String
  explanation : Option String
deriving DecidableEq, Repr

/-- An uploaded file as far as `addFiles` inspects it: `file.name` and
`file.size`. -/
structure FileInfo where
  name : String
  size : Nat
deriving DecidableEq, Repr

/-- The `appState.answers` object: a finite map from question index to the
stored JS value, modelled as an association list with replace-on-write
(`appState.answers[i] = v`). -/
abbrev AnswerMap := List (Nat × JSValue)

/-- `appState.answers[i] = v`: replace the entry for `i` if present, else
append it. -/
def setAnswer : AnswerMap → Nat → JSValue → AnswerMap
  | [], i, v => [(i, v)]
  | (j, w) :: rest, i, v =>
      if j = i then (i, v) :: rest else (j, w) :: setAnswer rest i v

/-- `appState.answers[i]`: `some` the stored value, `none` for `undefined`. -/
def lookupAnswer : AnswerMap → Nat → Option JSValue
  | [], _ => none
  | (j, w) :: rest, i => if j = i then some w else lookupAnswer rest i

/-- The global `appState` object (lines 2–8 of `script.js`). -/
structure AppState where
  files : List FileInfo
  quiz : Option (List Question)
  currentQuestionIndex : Nat
  answers : AnswerMap
  isGenerating : Bool
deriving DecidableEq, Repr

/-- The initial `appState` literal. -/
def initialAppState : AppState :=
  { files := [], quiz := none, currentQuestionIndex := 0, answers := [],
    isGenerating := false }

/-! ## File upload (`addFiles`, `removeFile`, `clearFiles`) -/

/-- The `validExtensions` array inside `addFiles`. -/
def validExtensions : List String := ["pdf", "docx", "txt", "doc"]

/-- Character-level model of `name.split('.')`: split at every dot; the
empty name yields one empty segment, a dotless name yields itself as the
single segment, consecutive dots yield empty segments — exactly the JS
`String.prototype.split` behaviour for a one-character separator. -/
def splitOnDot : List Char → List (List Char)
  | [] => [[]]
  | c :: rest =>
      if c = Char.ofNat 46 then [] :: splitOnDot rest
      else
        match splitOnDot rest with
        | [] => [[c]]
        | seg :: segs => (c :: seg) :: segs

/-- `file.name.split('.').pop().toLowerCase()` (ASCII lower-casing, which
is all the extension comparison exercises).  `split` on a dotless name
returns the whole name as the single segment, so the "extension" of a file
named `pdf` is `pdf`. -/
def fileExtension (name : String) : String :=
  String.mk ((((splitOnDot name.toList).getLast?).getD []).map Char.toLower)

/-- The filter predicate of `addFiles`: known extension and size at most
10 MB. -/
def isValidFile (f : FileInfo) : Bool :=
  validExtensions.contains (fileExtension f.name) && f.size ≤ 10 * 1024 * 1024

/-- `addFiles(files)` (lines 70–84): keep the valid files; if none is valid
show an error and leave the state untouched, otherwise append them. -/
def addFiles (s : AppState) (files : List FileInfo) : AppState × List UIMessage :=
  let validFiles := files.filter isValidFile
  if validFiles.isEmpty then
    (s, [.error "Please select valid files (PDF, DOCX, TXT, DOC) under 10MB"])
  else
    ({ s with files := s.files ++ validFiles }, [])

/-- `removeFile(index)` (lines 107–110): `splice(index, 1)`. -/
def removeFile (s : AppState) (index : Nat) : AppState :=
  { s with files := s.files.eraseIdx index }

/-- `clearFiles()` (lines 112–117), state part only. -/
def clearFiles (s : AppState) : AppState :=
  { s with files := [] }

/-! ## Display, answers and navigation -/

/-- `displayQuestion()` (lines 186–285), state-observable part: with no quiz
or an empty quiz it shows `No questions generated` and returns; with the
index in range it renders (no messages); with a non-empty quiz and the index
out of range, `appState.quiz[idx]` is `undefined` and reading
`question.type` raises a TypeError. -/
def displayQuestion (s : AppState) : Except JSError (List UIMessage) :=
  match s.quiz with
  | none => .ok [.error "No questions generated"]
  | some qs =>
      if qs.length = 0 then .ok [.error "No questions generated"]
      else if s.currentQuestionIndex < qs.length then .ok []
      else .error (.typeError "cannot read type of undefined")

/-- `updateNavigation()` (lines 316–319): reads `appState.quiz.length`, so it
raises a TypeError when no quiz is loaded; otherwise it only toggles button
state. -/
def updateNavigation (s : AppState) : Except JSError Unit :=
  match s.quiz with
  | none => .error (.typeError "cannot read length of null")
  | some _ => .ok ()

/-- The state of the answer widgets in the DOM at the moment `saveAnswer`
runs: a checked radio (its `value` attribute), a text input (its contents),
or neither. -/
inductive PendingInput where
  | radio : String → PendingInput
  | text : String → PendingInput
  | noInput : PendingInput
deriving DecidableEq, Repr

/-- `saveAnswer()` (lines 287–296): store the checked radio value, else the
text-input value, else do nothing.  Both DOM reads yield strings. -/
def saveAnswer (s : AppState) (p : PendingInput) : AppState :=
  match p with
  | .radio v =>
      { s with answers := setAnswer s.answers s.currentQuestionIndex (.str v) }
  | .text v =>
      { s with answers := setAnswer s.answers s.currentQuestionIndex (.str v) }
  | .noInput => s

/-- `previousQuestion()` (lines 298–305).  When the index is positive it saves
the pending answer, decrements the index and re-renders; `updateNavigation`
raises if no quiz is loaded. -/
def previousQuestion (s : AppState) (p : PendingInput) :
    Except JSError (AppState × List UIMessage) :=
  if s.currentQuestionIndex > 0 then
    let s1 := saveAnswer s p
    let s2 := { s1 with currentQuestionIndex := s1.currentQuestionIndex - 1 }
    do
      let msgs ← displayQuestion s2
      let _ ← updateNavigation s2
      pure (s2, msgs)
  else
    .ok (s, [])

/-- `nextQuestion()` (lines 307–314).  The guard reads `appState.quiz.length`,
so with no quiz loaded the call raises a TypeError before anything happens;
the JS comparison `idx < length - 1` is over JS numbers, so it is taken in
`Int` (an empty quiz gives `-1` on the right). -/
def nextQuestion (s : AppState) (p : PendingInput) :
    Except JSError (AppState × List UIMessage) :=
  match s.quiz with
  | none => .error (.typeError "cannot read length of null")
  | some qs =>
      if (s.currentQuestionIndex : Int) < (qs.length : Int) - 1 then
        let s1 := saveAnswer s p
        let s2 := { s1 with currentQuestionIndex := s1.currentQuestionIndex + 1 }
        do
          let msgs ← displayQuestion s2
          let _ ← updateNavigation s2
          pure (s2, msgs)
      else
        .ok (s, [])

/-- `appState.quiz[appState.currentQuestionIndex]` (line 192), the question
currently being shown. -/
def currentQuestion (s : AppState) : Option Question :=
  s.quiz.bind (fun qs => qs[s.currentQuestionIndex]?)

/-! ## Generation, retake, export -/

/-- Outcome of the `fetch` in `generateQuiz`: any throwing path (network
failure, non-ok response, bad JSON) versus a parsed `data.quiz` list. -/
inductive GenResult where
  | fail : GenResult
  | ok : List Question → GenResult
deriving DecidableEq, Repr

/-- `generateQuiz()` (lines 138–177).  On a throwing fetch the `catch` shows
`Failed to generate quiz` and the state is untouched.  On a parsed response
the quiz is installed, the index reset and the answers cleared
unconditionally — there is no emptiness check and no in-flight
(`isGenerating`) check — then `displayQuiz` runs (its messages surface) and
a success message is shown; a TypeError escaping `displayQuiz` would be
caught, after the state mutations. -/
def generateQuiz (s : AppState) (r : GenResult) : AppState × List UIMessage :=
  match r with
  | .fail => (s, [.error "Failed to generate quiz"])
  | .ok qs =>
      let s1 := { s with quiz := some qs, currentQuestionIndex := 0,
                         answers := [] }
      match (do
          let msgs ← displayQuestion s1
          let _ ← updateNavigation s1
          pure msgs : Except JSError (List UIMessage)) with
      | .ok msgs => (s1, msgs ++ [.success "Quiz generated successfully!"])
      | .error e => (s1, [.error e.message])

/-- `retakeQuiz()` (lines 340–345): reset index and answers, re-render. -/
def retakeQuiz (s : AppState) : Except JSError (AppState × List UIMessage) :=
  let s1 := { s with currentQuestionIndex := 0, answers := [] }
  do
    let msgs ← displayQuestion s1
    let _ ← updateNavigation s1
    pure (s1, msgs)

/-- The record serialized by `downloadQuiz` (lines 322–326). -/
structure ExportRecord where
  questions : Option (List Question)
  answers : AnswerMap
  timestamp : String
deriving DecidableEq, Repr

/-- `downloadQuiz()` (lines 321–338), data part: the exported record holds
the live quiz list, the live answers object, and
`new Date().toISOString()` — the wall-clock time **of the export call**,
passed here as the explicit parameter `nowIso`. -/
def downloadQuiz (s : AppState) (nowIso : String) : ExportRecord :=
  { questions := s.quiz, answers := s.answers, timestamp := nowIso }

/-! ## Rendering of the saved-answer restore -/

/-- The `checked` computation of the `multiple_choice` and
`fill_in_the_blank` branches of `displayQuestion` (lines 215 and 253):
`savedAnswer === index ? 'checked' : ''`, with `savedAnswer` the stored
answer (or `undefined` when absent) and `index` the numeric option index.
`undefined === n` is false in JS. -/
def mcOptionChecked (savedAnswer : Option JSValue) (index : Nat) : Bool :=
  match savedAnswer with
  | none => false
  | some v => jsStrictEq v (.num index)

/-- All values stored in an answer map are strings. -/
def allStringAnswers (m : AnswerMap) : Prop :=
  ∀ p ∈ m, p.2.isStr = true

instance (m : AnswerMap) : Decidable (allStringAnswers m) := by
  unfold allStringAnswers
  infer_instance

/-! ## Navigation command sequences -/

/-- One user navigation action: the Next or Previous button, together with
the answer-widget state the DOM exposes at that moment. -/
inductive NavCmd where
  | next : PendingInput → NavCmd
  | prev : PendingInput → NavCmd
deriving DecidableEq, Repr

/-- Run one navigation action. -/
def navStep (s : AppState) : NavCmd → Except JSError (AppState × List UIMessage)
  | .next p => nextQuestion s p
  | .prev p => previousQuestion s p

/-- Run a sequence of navigation actions, stopping at the first uncaught
exception. -/
def runNav (s : AppState) : List NavCmd → Except JSError AppState
  | [] => .ok s
  | c :: cs => do
      let x ← navStep s c
      runNav x.1 cs

/-! ## Sample data for concrete evaluations -/

/-- A sample multiple-choice question. -/
def mcQuestion : Question :=
  { type := "multiple_choice", question := "What is 2 plus 2?",
    options := ["3", "4"], explanation := none }

/-- A sample true/false question. -/
def tfQuestion : Question :=
  { type := "true_false", question := "The sky is blue.",
    options := [], explanation := none }

/-- A sample short-answer question. -/
def saQuestion : Question :=
  { type := "short_answer", question := "Name the capital of France.",
    options := [], explanation := some "It is Paris." }

/-- A state with a quiz already loaded and an answer recorded, while a
generation request is still in flight (`isGenerating = true`). -/
def busyState : AppState :=
  { files := [], quiz := some [mcQuestion], currentQuestionIndex := 0,
    answers := [(0, JSValue.str "1")], isGenerating := true }

/-- A quiescent state with a quiz loaded and one answer recorded. -/
def priorState : AppState :=
  { files := [], quiz := some [mcQuestion], currentQuestionIndex := 0,
    answers := [(0, JSValue.str "1")], isGenerating := false }

/-- A state with a two-question quiz loaded, for navigation scenarios. -/
def twoQState : AppState :=
  { files := [], quiz := some [mcQuestion, tfQuestion],
    currentQuestionIndex := 0, answers := [], isGenerating := false }

/-- A state with a three-question quiz loaded at index 0. -/
def threeQState : AppState :=
  { files := [], quiz := some [mcQuestion, tfQuestion, saQuestion],
    currentQuestionIndex := 0, answers := [], isGenerating := false }

/-- A state holding one valid uploaded file. -/
def oneFileState : AppState :=
  { files := [{ name := "notes.pdf", size := 1000 }], quiz := none,
    currentQuestionIndex := 0, answers := [], isGenerating := false }

/-! ## Helper lemmas -/

theorem lookup_setAnswer_self (m : AnswerMap) (i : Nat) (v : JSValue) :
    lookupAnswer (setAnswer m i v) i = some v := by
  induction m with
  | nil => simp [setAnswer, lookupAnswer]
  | cons hd tl ih =>
      obtain ⟨j, w⟩ := hd
      by_cases h : j = i <;> simp [setAnswer, lookupAnswer, h, ih]

theorem lookup_setAnswer_ne (m : AnswerMap) {i j : Nat} (v : JSValue)
    (h : j ≠ i) : lookupAnswer (setAnswer m i v) j = lookupAnswer m j := by
  have h' : ¬ i = j := fun e => h e.symm
  induction m with
  | nil =>
      simp only [setAnswer, lookupAnswer]
      rw [if_neg h']
  | cons hd tl ih =>
      obtain ⟨k, w⟩ := hd
      simp only [setAnswer]
      by_cases hk : k = i
      · have hkj : ¬ k = j := by rw [hk]; exact h'
        rw [if_pos hk]
        simp only [lookupAnswer]
        rw [if_neg h', if_neg hkj]
      · rw [if_neg hk]
        by_cases hkj : k = j <;> simp [lookupAnswer, hkj, ih]

theorem allStringAnswers_setAnswer {m : AnswerMap} (h : allStringAnswers m)
    (i : Nat) (t : String) : allStringAnswers (setAnswer m i (.str t)) := by
  induction m with
  | nil =>
      intro p hp
      simp [setAnswer] at hp
      simp [hp, JSValue.isStr]
  | cons hd tl ih =>
      obtain ⟨k, w⟩ := hd
      have hw : w.isStr = true := h (k, w) (by simp)
      have htl : allStringAnswers tl := fun p hp => h p (by simp [hp])
      intro p hp
      by_cases hk : k = i
      · simp [setAnswer, hk] at hp
        rcases hp with hp | hp
        · simp [hp, JSValue.isStr]
        · exact htl p hp
      · simp [setAnswer, hk] at hp
        rcases hp with hp | hp
        · simp [hp, hw]
        · exact ih htl p hp

theorem saveAnswer_quiz (s : AppState) (p : PendingInput) :
    (saveAnswer s p).quiz = s.quiz := by
  cases p <;> rfl

theorem saveAnswer_idx (s : AppState) (p : PendingInput) :
    (saveAnswer s p).currentQuestionIndex = s.currentQuestionIndex := by
  cases p <;> rfl

theorem saveAnswer_files (s : AppState) (p : PendingInput) :
    (saveAnswer s p).files = s.files := by
  cases p <;> rfl

theorem displayQuestion_ok_of_lt {s : AppState} {qs : List Question}
    (hq : s.quiz = some qs) (h : s.currentQuestionIndex < qs.length) :
    displayQuestion s = .ok [] := by
  unfold displayQuestion
  rw [hq]
  have hz : ¬ qs.length = 0 := by omega
  simp [hz, h]

theorem updateNavigation_ok {s : AppState} {qs : List Question}
    (hq : s.quiz = some qs) : updateNavigation s = .ok () := by
  unfold updateNavigation
  rw [hq]

theorem nextQuestion_eq_of_lt {s : AppState} {qs : List Question}
    (p : PendingInput) (hq : s.quiz = some qs)
    (h : s.currentQuestionIndex + 1 < qs.length) :
    nextQuestion s p =
      .ok ({ saveAnswer s p with
             currentQuestionIndex := s.currentQuestionIndex + 1 }, []) := by
  have hc : (s.currentQuestionIndex : Int) < (qs.length : Int) - 1 := by omega
  have hq2 : ({ saveAnswer s p with
      currentQuestionIndex := s.currentQuestionIndex + 1 } : AppState).quiz
      = some qs := by
    show (saveAnswer s p).quiz = some qs
    rw [saveAnswer_quiz, hq]
  have hlt2 : ({ saveAnswer s p with
      currentQuestionIndex := s.currentQuestionIndex + 1 } :
      AppState).currentQuestionIndex < qs.length := h
  simp only [nextQuestion, hq, saveAnswer_idx]
  rw [if_pos hc, displayQuestion_ok_of_lt hq2 hlt2, updateNavigation_ok hq2]
  rfl

theorem nextQuestion_eq_of_ge {s : AppState} {qs : List Question}
    (p : PendingInput) (hq : s.quiz = some qs)
    (h : qs.length ≤ s.currentQuestionIndex + 1) :
    nextQuestion s p = .ok (s, []) := by
  have hc : ¬ (s.currentQuestionIndex : Int) < (qs.length : Int) - 1 := by
    omega
  simp only [nextQuestion, hq, saveAnswer_idx]
  rw [if_neg hc]

theorem previousQuestion_eq_of_pos {s : AppState} {qs : List Question}
    (p : PendingInput) (hq : s.quiz = some qs)
    (h0 : 0 < s.currentQuestionIndex)
    (hlt : s.currentQuestionIndex - 1 < qs.length) :
    previousQuestion s p =
      .ok ({ saveAnswer s p with
             currentQuestionIndex := s.currentQuestionIndex - 1 }, []) := by
  have hq2 : ({ saveAnswer s p with
      currentQuestionIndex := s.currentQuestionIndex - 1 } : AppState).quiz
      = some qs := by
    show (saveAnswer s p).quiz = some qs
    rw [saveAnswer_quiz, hq]
  have hlt2 : ({ saveAnswer s p with
      currentQuestionIndex := s.currentQuestionIndex - 1 } :
      AppState).currentQuestionIndex < qs.length := hlt
  simp only [previousQuestion, saveAnswer_idx]
  rw [if_pos h0, displayQuestion_ok_of_lt hq2 hlt2, updateNavigation_ok hq2]
  rfl

theorem previousQuestion_eq_of_zero {s : AppState} (p : PendingInput)
    (h : s.currentQuestionIndex = 0) : previousQuestion s p = .ok (s, []) := by
  simp only [previousQuestion]
  rw [if_neg (by omega)]

/-- The navigation invariant: the same quiz is loaded and the index is in
range. -/
def NavInv (qs : List Question) (s : AppState) : Prop :=
  s.quiz = some qs ∧ s.currentQuestionIndex < qs.length

theorem navStep_inv {qs : List Question} {s : AppState} (c : NavCmd)
    (h : NavInv qs s) :
    ∃ s' m, navStep s c = .ok (s', m) ∧ NavInv qs s' := by
  obtain ⟨hq, hlt⟩ := h
  cases c with
  | next p =>
      by_cases hc : s.currentQuestionIndex + 1 < qs.length
      · refine ⟨_, _, nextQuestion_eq_of_lt p hq hc, ?_, ?_⟩
        · rw [show ({ saveAnswer s p with
            currentQuestionIndex := s.currentQuestionIndex + 1 } :
            AppState).quiz = (saveAnswer s p).quiz from rfl,
            saveAnswer_quiz, hq]
        · simpa using hc
      · exact ⟨_, _, nextQuestion_eq_of_ge p hq (by omega), hq, hlt⟩
  | prev p =>
      by_cases hc : 0 < s.currentQuestionIndex
      · refine ⟨_, _, previousQuestion_eq_of_pos p hq hc (by omega), ?_, ?_⟩
        · rw [show ({ saveAnswer s p with
            currentQuestionIndex := s.currentQuestionIndex - 1 } :
            AppState).quiz = (saveAnswer s p).quiz from rfl,
            saveAnswer_quiz, hq]
        · simpa using by omega
      · exact ⟨_, _, previousQuestion_eq_of_zero p (by omega), hq, hlt⟩

theorem runNav_inv {qs : List Question} (cmds : List NavCmd) {s : AppState}
    (h : NavInv qs s) :
    ∃ s', runNav s cmds = .ok s' ∧ NavInv qs s' := by
  induction cmds generalizing s with
  | nil => exact ⟨s, rfl, h⟩
  | cons c cs ih =>
      obtain ⟨s1, m1, hstep, hinv⟩ := navStep_inv c h
      obtain ⟨s', hrun, hinv'⟩ := ih hinv
      refine ⟨s', ?_, hinv'⟩
      simp only [runNav, hstep]
      simpa using hrun

theorem runNav_cons (c : NavCmd) (cs : List NavCmd) {s s1 : AppState}
    {m : List UIMessage} (h : navStep s c = .ok (s1, m)) :
    runNav s (c :: cs) = runNav s1 cs := by
  simp only [runNav, h]
  rfl

theorem generateQuiz_ok_nonempty (s : AppState) (q : Question)
    (rest : List Question) :
    generateQuiz s (.ok (q :: rest)) =
      ({ s with
          quiz := some (q :: rest), currentQuestionIndex := 0,
          answers := [] }, [.success "Quiz generated successfully!"]) := by
  have hq1 : ({ s with
      quiz := some (q :: rest), currentQuestionIndex := 0,
      answers := [] } : AppState).quiz = some (q :: rest) := rfl
  have hd : displayQuestion { s with
      quiz := some (q :: rest), currentQuestionIndex := 0,
      answers := [] } = .ok [] :=
    displayQuestion_ok_of_lt hq1 (by simp)
  simp only [generateQuiz]
  rw [hd, updateNavigation_ok hq1]
  rfl

theorem lookup_saveAnswer_ne (s : AppState) (p : PendingInput) {j : Nat}
    (h : j ≠ s.currentQuestionIndex) :
    lookupAnswer (saveAnswer s p).answers j = lookupAnswer s.answers j := by
  cases p <;> simp [saveAnswer, lookup_setAnswer_ne _ _ h]

theorem lookupAnswer_mem {m : AnswerMap} {i : Nat} {v : JSValue}
    (h : lookupAnswer m i = some v) : (i, v) ∈ m := by
  induction m with
  | nil => simp [lookupAnswer] at h
  | cons hd tl ih =>
      obtain ⟨k, w⟩ := hd
      by_cases hk : k = i
      · subst hk
        simp [lookupAnswer] at h
        simp [h]
      · simp [lookupAnswer, hk] at h
        simp [ih h]

theorem displayQuestion_ok_of_zero {s : AppState} {qs : List Question}
    (hq : s.quiz = some qs) (h0 : s.currentQuestionIndex = 0) :
    ∃ msgs, displayQuestion s = .ok msgs := by
  simp only [displayQuestion, hq]
  by_cases hz : qs.length = 0
  · exact ⟨_, by rw [if_pos hz]⟩
  · exact ⟨[], by rw [if_neg hz, if_pos (by omega)]⟩

/-! ## Claim theorems -/

/-- C3: for every loaded non-empty questionSet and every finite sequence of
navigation calls (Next/Previous with arbitrary pending widget state),
`currentQuestionIndex` stays within `[0, len-1]` after each call (the lower
bound is inherent in the `Nat` index), no call raises, the loaded quiz is
untouched, and in particular pressing Next 5 times from index 0 on a
3-question set ends at index 2. -/
theorem claim3_navigation_clamps (s : AppState) (qs : List Question)
    (cmds : List NavCmd) (hq : s.quiz = some qs)
    (hlt : s.currentQuestionIndex < qs.length) :
    (∃ s', runNav s cmds = .ok s' ∧ s'.quiz = some qs ∧
      s'.currentQuestionIndex < qs.length) ∧
    (∀ p : PendingInput, qs.length = 3 → s.currentQuestionIndex = 0 →
      ∃ s', runNav s [.next p, .next p, .next p, .next p, .next p] = .ok s' ∧
        s'.currentQuestionIndex = 2) := by
  constructor
  · obtain ⟨s', hrun, hq', hlt'⟩ := runNav_inv cmds ⟨hq, hlt⟩
    exact ⟨s', hrun, hq', hlt'⟩
  · intro p h3 h0
    have e1 : nextQuestion s p =
        .ok ({ saveAnswer s p with
               currentQuestionIndex := s.currentQuestionIndex + 1 }, []) :=
      nextQuestion_eq_of_lt p hq (by omega)
    have hq1 : ({ saveAnswer s p with
        currentQuestionIndex := s.currentQuestionIndex + 1 } :
        AppState).quiz = some qs := by
      show (saveAnswer s p).quiz = some qs
      rw [saveAnswer_quiz, hq]
    have hi1 : ({ saveAnswer s p with
        currentQuestionIndex := s.currentQuestionIndex + 1 } :
        AppState).currentQuestionIndex = 1 := by
      show s.currentQuestionIndex + 1 = 1
      omega
    set u1 : AppState := { saveAnswer s p with
        currentQuestionIndex := s.currentQuestionIndex + 1 }
    have e2 : nextQuestion u1 p =
        .ok ({ saveAnswer u1 p with
               currentQuestionIndex := u1.currentQuestionIndex + 1 }, []) :=
      nextQuestion_eq_of_lt p hq1 (by omega)
    have hq2 : ({ saveAnswer u1 p with
        currentQuestionIndex := u1.currentQuestionIndex + 1 } :
        AppState).quiz = some qs := by
      show (saveAnswer u1 p).quiz = some qs
      rw [saveAnswer_quiz, hq1]
    have hi2 : ({ saveAnswer u1 p with
        currentQuestionIndex := u1.currentQuestionIndex + 1 } :
        AppState).currentQuestionIndex = 2 := by
      show u1.currentQuestionIndex + 1 = 2
      omega
    set u2 : AppState := { saveAnswer u1 p with
        currentQuestionIndex := u1.currentQuestionIndex + 1 }
    have e3 : nextQuestion u2 p = .ok (u2, []) :=
      nextQuestion_eq_of_ge p hq2 (by omega)
    refine ⟨u2, ?_, hi2⟩
    rw [runNav_cons (.next p) _ e1, runNav_cons (.next p) _ e2,
      runNav_cons (.next p) _ e3, runNav_cons (.next p) _ e3,
      runNav_cons (.next p) _ e3]
    rfl

/-- C3 witness: the three-question state at index 0 satisfies the
hypotheses; a mixed Next/Previous sequence stays in range and the 5×Next
scenario ends at index 2. -/
theorem claim3_witness :
    (∃ s', runNav threeQState
        [.next .noInput, .next .noInput, .prev .noInput] = .ok s' ∧
      s'.quiz = some [mcQuestion, tfQuestion, saQuestion] ∧
      s'.currentQuestionIndex < 3) ∧
    (∀ p : PendingInput, (3 : Nat) = 3 → (0 : Nat) = 0 →
      ∃ s', runNav threeQState [.next p, .next p, .next p, .next p, .next p]
          = .ok s' ∧ s'.currentQuestionIndex = 2) := by
  have h := claim3_navigation_clamps threeQState
    [mcQuestion, tfQuestion, saQuestion]
    [.next .noInput, .next .noInput, .prev .noInput] rfl (by decide)
  exact ⟨h.1, fun p _ _ => h.2 p rfl rfl⟩

/-- C5: loading a non-empty question list through the success path of
`generateQuiz` installs exactly that list, clears the answers, resets the
index to 0, and the current question is element 0. -/
theorem claim5_load_initializes (s : AppState) (q : Question)
    (rest : List Question) :
    (generateQuiz s (.ok (q :: rest))).1.quiz = some (q :: rest) ∧
    (generateQuiz s (.ok (q :: rest))).1.answers = [] ∧
    (generateQuiz s (.ok (q :: rest))).1.currentQuestionIndex = 0 ∧
    currentQuestion (generateQuiz s (.ok (q :: rest))).1 = some q := by
  rw [generateQuiz_ok_nonempty]
  refine ⟨rfl, rfl, rfl, ?_⟩
  simp [currentQuestion]

/-- C6: retaking with a loaded quiz succeeds, clears all answers, resets the
index to 0 and leaves the question list (and the uploaded files) exactly as
they were. -/
theorem claim6_retake (s : AppState) (qs : List Question)
    (hq : s.quiz = some qs) :
    ∃ s' msgs, retakeQuiz s = .ok (s', msgs) ∧ s'.quiz = some qs ∧
      s'.answers = [] ∧ s'.currentQuestionIndex = 0 ∧ s'.files = s.files := by
  have hq1 : ({ s with currentQuestionIndex := 0, answers := [] } :
      AppState).quiz = some qs := hq
  obtain ⟨msgs, hdisp⟩ := displayQuestion_ok_of_zero hq1 rfl
  refine ⟨{ s with currentQuestionIndex := 0, answers := [] }, msgs,
    ?_, hq1, rfl, rfl, rfl⟩
  simp only [retakeQuiz]
  rw [hdisp, updateNavigation_ok hq1]
  rfl

/-- C6 witness: retaking the one-answer state clears the answer, resets the
index and keeps the quiz. -/
theorem claim6_witness :
    ∃ s' msgs, retakeQuiz priorState = .ok (s', msgs) ∧
      s'.quiz = some [mcQuestion] ∧ s'.answers = [] ∧
      s'.currentQuestionIndex = 0 ∧ s'.files = priorState.files :=
  claim6_retake priorState [mcQuestion] rfl

/-- C4: recording an answer `v` at the current index (the checked radio keeps
showing `v`, so navigating away re-saves the same value, as the DOM does),
then moving one step away and one step back, returns to the original index
with the stored answer still exactly `.str v`.  Both directions are covered:
Next-then-Previous when a next question exists, Previous-then-Next when a
previous one does; the pending widget state at the far question is
arbitrary. -/
theorem claim4_answer_roundtrip (s : AppState) (qs : List Question)
    (v : String) (p : PendingInput) (hq : s.quiz = some qs) :
    (s.currentQuestionIndex + 1 < qs.length →
      ∃ s2 s3,
        nextQuestion (saveAnswer s (.radio v)) (.radio v) = .ok (s2, []) ∧
        previousQuestion s2 p = .ok (s3, []) ∧
        s3.currentQuestionIndex = s.currentQuestionIndex ∧
        lookupAnswer s3.answers s.currentQuestionIndex = some (.str v)) ∧
    (0 < s.currentQuestionIndex → s.currentQuestionIndex < qs.length →
      ∃ s2 s3,
        previousQuestion (saveAnswer s (.radio v)) (.radio v) = .ok (s2, []) ∧
        nextQuestion s2 p = .ok (s3, []) ∧
        s3.currentQuestionIndex = s.currentQuestionIndex ∧
        lookupAnswer s3.answers s.currentQuestionIndex = some (.str v)) := by
  have hq1 : (saveAnswer s (.radio v)).quiz = some qs := by
    rw [saveAnswer_quiz, hq]
  have hi1 : (saveAnswer s (.radio v)).currentQuestionIndex
      = s.currentQuestionIndex := saveAnswer_idx s _
  have ha1 : (saveAnswer s (.radio v)).answers
      = setAnswer s.answers s.currentQuestionIndex (.str v) := rfl
  constructor
  · intro hlt
    have e1 : nextQuestion (saveAnswer s (.radio v)) (.radio v) =
        .ok ({ saveAnswer (saveAnswer s (.radio v)) (.radio v) with
               currentQuestionIndex :=
                 (saveAnswer s (.radio v)).currentQuestionIndex + 1 }, []) :=
      nextQuestion_eq_of_lt _ hq1 (by omega)
    set s2 : AppState := { saveAnswer (saveAnswer s (.radio v)) (.radio v) with
        currentQuestionIndex :=
          (saveAnswer s (.radio v)).currentQuestionIndex + 1 } with hs2
    have hq2 : s2.quiz = some qs := by
      rw [hs2]
      show (saveAnswer (saveAnswer s (.radio v)) (.radio v)).quiz = some qs
      rw [saveAnswer_quiz, hq1]
    have hi2 : s2.currentQuestionIndex = s.currentQuestionIndex + 1 := by
      rw [hs2]
      show (saveAnswer s (.radio v)).currentQuestionIndex + 1 = _
      rw [hi1]
    have ha2 : lookupAnswer s2.answers s.currentQuestionIndex
        = some (.str v) := by
      rw [hs2]
      show lookupAnswer
        (saveAnswer (saveAnswer s (.radio v)) (.radio v)).answers _ = _
      show lookupAnswer (setAnswer (saveAnswer s (.radio v)).answers
        (saveAnswer s (.radio v)).currentQuestionIndex (.str v)) _ = _
      rw [hi1, lookup_setAnswer_self]
    have e2 : previousQuestion s2 p =
        .ok ({ saveAnswer s2 p with
               currentQuestionIndex := s2.currentQuestionIndex - 1 }, []) :=
      previousQuestion_eq_of_pos p hq2 (by omega) (by omega)
    refine ⟨s2, _, e1, e2, ?_, ?_⟩
    · show s2.currentQuestionIndex - 1 = s.currentQuestionIndex
      omega
    · show lookupAnswer (saveAnswer s2 p).answers s.currentQuestionIndex
        = some (.str v)
      rw [lookup_saveAnswer_ne s2 p (by omega), ha2]
  · intro h0 hlt
    have e1 : previousQuestion (saveAnswer s (.radio v)) (.radio v) =
        .ok ({ saveAnswer (saveAnswer s (.radio v)) (.radio v) with
               currentQuestionIndex :=
                 (saveAnswer s (.radio v)).currentQuestionIndex - 1 }, []) :=
      previousQuestion_eq_of_pos _ hq1 (by omega) (by omega)
    set s2 : AppState := { saveAnswer (saveAnswer s (.radio v)) (.radio v) with
        currentQuestionIndex :=
          (saveAnswer s (.radio v)).currentQuestionIndex - 1 } with hs2
    have hq2 : s2.quiz = some qs := by
      rw [hs2]
      show (saveAnswer (saveAnswer s (.radio v)) (.radio v)).quiz = some qs
      rw [saveAnswer_quiz, hq1]
    have hi2 : s2.currentQuestionIndex = s.currentQuestionIndex - 1 := by
      rw [hs2]
      show (saveAnswer s (.radio v)).currentQuestionIndex - 1 = _
      rw [hi1]
    have ha2 : lookupAnswer s2.answers s.currentQuestionIndex
        = some (.str v) := by
      rw [hs2]
      show lookupAnswer
        (saveAnswer (saveAnswer s (.radio v)) (.radio v)).answers _ = _
      show lookupAnswer (setAnswer (saveAnswer s (.radio v)).answers
        (saveAnswer s (.radio v)).currentQuestionIndex (.str v)) _ = _
      rw [hi1, lookup_setAnswer_self]
    have e2 : nextQuestion s2 p =
        .ok ({ saveAnswer s2 p with
               currentQuestionIndex := s2.currentQuestionIndex + 1 }, []) :=
      nextQuestion_eq_of_lt p hq2 (by omega)
    refine ⟨s2, _, e1, e2, ?_, ?_⟩
    · show s2.currentQuestionIndex + 1 = s.currentQuestionIndex
      omega
    · show lookupAnswer (saveAnswer s2 p).answers s.currentQuestionIndex
        = some (.str v)
      rw [lookup_saveAnswer_ne s2 p (by omega), ha2]

/-- C4 witness: on a two-question quiz at index 0, record the radio value
`1`, press Next then Previous: back at index 0 the stored answer is still
the string `1`. -/
theorem claim4_witness :
    ∃ s2 s3,
      nextQuestion (saveAnswer twoQState (.radio "1")) (.radio "1")
        = .ok (s2, []) ∧
      previousQuestion s2 .noInput = .ok (s3, []) ∧
      s3.currentQuestionIndex = twoQState.currentQuestionIndex ∧
      lookupAnswer s3.answers twoQState.currentQuestionIndex
        = some (.str "1") :=
  (claim4_answer_roundtrip twoQState [mcQuestion, tfQuestion] "1" .noInput
    rfl).1 (by decide)

/-- C1 (documents the code bug): `generateQuiz` contains no in-flight guard.
The `appState.isGenerating` flag is declared but never read or written
(conjunct 1), the behaviour of `generateQuiz` does not depend on the flag at
all (conjunct 2), and a call made while a generation is in flight
(`busyState`, `isGenerating = true`) is not rejected with any
`GenerationInProgressError`: it runs to completion, overwrites the loaded
quiz and the recorded answers, and reports success (conjunct 3). -/
theorem claim1_no_inflight_guard :
    (∀ (s : AppState) (r : GenResult),
      (generateQuiz s r).1.isGenerating = s.isGenerating) ∧
    (∀ (s : AppState) (r : GenResult) (b : Bool),
      (generateQuiz { s with isGenerating := b } r).2
        = (generateQuiz s r).2) ∧
    generateQuiz busyState (.ok [tfQuestion]) =
      ({ busyState with
          quiz := some [tfQuestion], currentQuestionIndex := 0,
          answers := [] }, [.success "Quiz generated successfully!"]) := by
  refine ⟨?_, ?_, ?_⟩
  · intro s r
    cases r with
    | fail => rfl
    | ok qs =>
        simp only [generateQuiz]
        split <;> rfl
  · intro s r b
    cases r with
    | fail => rfl
    | ok qs =>
        simp only [generateQuiz]
        have h1 : displayQuestion { { s with isGenerating := b } with
            quiz := some qs, currentQuestionIndex := 0, answers := [] }
            = displayQuestion { s with
            quiz := some qs, currentQuestionIndex := 0, answers := [] } := rfl
        have h2 : updateNavigation { { s with isGenerating := b } with
            quiz := some qs, currentQuestionIndex := 0, answers := [] }
            = updateNavigation { s with
            quiz := some qs, currentQuestionIndex := 0, answers := [] } := rfl
        rw [h1, h2]
        split <;> rfl
  · exact generateQuiz_ok_nonempty busyState tfQuestion []

/-- C2 counterexample: from a state with a loaded one-question quiz and a
recorded answer, a generation that completes with the empty question list
does NOT leave the prior session state unmodified: the prior quiz is
replaced by the empty list and the recorded answers are cleared. -/
theorem claim2_counterexample :
    (generateQuiz priorState (.ok [])).1 ≠ priorState ∧
    (generateQuiz priorState (.ok [])).1.quiz = some [] ∧
    (generateQuiz priorState (.ok [])).1.answers = [] ∧
    priorState.quiz = some [mcQuestion] ∧
    priorState.answers = [(0, JSValue.str "1")] := by
  decide

/-- C2 amended: a failed generation (throwing fetch path) leaves the state
unmodified and shows `Failed to generate quiz`; an empty-result generation
instead replaces the questionSet with the empty list, resets the index and
clears the answers — destroying the prior quiz — while showing
`No questions generated` followed by a success notice. -/
theorem claim2_empty_or_failed_generation (s : AppState) :
    generateQuiz s .fail = (s, [.error "Failed to generate quiz"]) ∧
    (generateQuiz s (.ok [])).1 =
      { s with quiz := some [], currentQuestionIndex := 0, answers := [] } ∧
    (generateQuiz s (.ok [])).2 =
      [.error "No questions generated",
       .success "Quiz generated successfully!"] := by
  exact ⟨rfl, rfl, rfl⟩

/-- C7 counterexample: two exports of the very same session state, made at
different wall-clock instants, carry different timestamps, and the
timestamp equals the export-call instant — so the exported timestamp is not
a generation timestamp captured at load time (the state stores no such
timestamp at all). -/
theorem claim7_counterexample :
    (downloadQuiz priorState "2024-01-01T00:00:00.000Z").timestamp ≠
      (downloadQuiz priorState "2024-01-02T00:00:00.000Z").timestamp ∧
    (downloadQuiz priorState "2024-01-02T00:00:00.000Z").timestamp =
      "2024-01-02T00:00:00.000Z" := by
  decide

/-- C7 amended: `downloadQuiz` exports exactly the live question list and
the live answer map, and its `timestamp` is the ISO-8601 string of the
moment the export itself runs (`new Date().toISOString()`), not a load-time
stamp. -/
theorem claim7_export_record (s : AppState) (nowIso : String) :
    downloadQuiz s nowIso =
      { questions := s.quiz, answers := s.answers, timestamp := nowIso } :=
  rfl

/-- C8 counterexample: with no quiz loaded, pressing Next does not fail with
a well-defined `NoActiveQuizError`: reading `appState.quiz.length` on the
`null` quiz raises an uncaught TypeError. -/
theorem claim8_counterexample :
    nextQuestion initialAppState .noInput =
      .error (.typeError "cannot read length of null") := by
  rfl

/-- C8 amended: with no loaded questionSet, `displayQuestion` reports the
handled message `No questions generated` and the current-question read
yields nothing, but the navigation operations do not fail with a
well-defined error kind: `nextQuestion` raises an uncaught TypeError, and
`previousQuestion` raises one too whenever the index is positive (it is a
silent no-op only at index 0). -/
theorem claim8_no_quiz_behaviour (s : AppState) (p : PendingInput)
    (h : s.quiz = none) :
    displayQuestion s = .ok [.error "No questions generated"] ∧
    currentQuestion s = none ∧
    nextQuestion s p = .error (.typeError "cannot read length of null") ∧
    (0 < s.currentQuestionIndex →
      previousQuestion s p =
        .error (.typeError "cannot read length of null")) ∧
    (s.currentQuestionIndex = 0 → previousQuestion s p = .ok (s, [])) := by
  refine ⟨?_, ?_, ?_, ?_, fun h0 => previousQuestion_eq_of_zero p h0⟩
  · simp only [displayQuestion, h]
  · simp [currentQuestion, h]
  · simp only [nextQuestion, h]
  · intro h0
    have hd : displayQuestion { saveAnswer s p with
        currentQuestionIndex := s.currentQuestionIndex - 1 }
        = .ok [.error "No questions generated"] := by
      simp only [displayQuestion, saveAnswer_quiz, h]
    have hu : updateNavigation { saveAnswer s p with
        currentQuestionIndex := s.currentQuestionIndex - 1 }
        = .error (.typeError "cannot read length of null") := by
      simp only [updateNavigation, saveAnswer_quiz, h]
    simp only [previousQuestion, saveAnswer_idx]
    rw [if_pos h0, hd, hu]
    rfl

/-- C8 witness: the initial state has no quiz; `displayQuestion` reports the
handled message, `nextQuestion` raises, `previousQuestion` at index 0 is a
no-op. -/
theorem claim8_witness :
    displayQuestion initialAppState = .ok [.error "No questions generated"] ∧
    currentQuestion initialAppState = none ∧
    nextQuestion initialAppState .noInput =
      .error (.typeError "cannot read length of null") ∧
    (0 < initialAppState.currentQuestionIndex →
      previousQuestion initialAppState .noInput =
        .error (.typeError "cannot read length of null")) ∧
    (initialAppState.currentQuestionIndex = 0 →
      previousQuestion initialAppState .noInput
        = .ok (initialAppState, [])) :=
  claim8_no_quiz_behaviour initialAppState .noInput rfl

/-- C9: `addFiles` appends exactly the input files passing the validity
filter (known lower-cased final extension and size ≤ 10 MB); when no input
file passes, the file list is left completely unchanged and the error
message is shown; validity of every stored file is an invariant preserved
by `addFiles`, `removeFile` and `clearFiles` from the (empty) initial list;
and the filter is precisely membership of the lower-cased final extension
in `pdf/docx/txt/doc` together with the 10 MB bound. -/
theorem claim9_file_invariant (s : AppState) (files : List FileInfo) (i : Nat)
    (hs : ∀ g ∈ s.files, isValidFile g = true) :
    (addFiles s files).1.files = s.files ++ files.filter isValidFile ∧
    (files.filter isValidFile = [] →
      addFiles s files = (s,
        [.error
          "Please select valid files (PDF, DOCX, TXT, DOC) under 10MB"])) ∧
    (∀ f ∈ (addFiles s files).1.files, isValidFile f = true) ∧
    (∀ f ∈ (removeFile s i).files, isValidFile f = true) ∧
    (∀ f ∈ (clearFiles s).files, isValidFile f = true) ∧
    (∀ f ∈ initialAppState.files, isValidFile f = true) ∧
    (∀ f : FileInfo, isValidFile f = true ↔
      (fileExtension f.name ∈ validExtensions ∧
        f.size ≤ 10 * 1024 * 1024)) := by
  have hfiles : (addFiles s files).1.files
      = s.files ++ files.filter isValidFile := by
    by_cases hv : (files.filter isValidFile).isEmpty
    · have hnil := List.isEmpty_iff.mp hv
      simp [addFiles, hv, hnil]
    · simp [addFiles, hv]
  refine ⟨hfiles, ?_, ?_, ?_, ?_, ?_, ?_⟩
  · intro hf
    simp [addFiles, hf]
  · intro f hf
    rw [hfiles] at hf
    rcases List.mem_append.mp hf with hf | hf
    · exact hs f hf
    · exact (List.mem_filter.mp hf).2
  · intro f hf
    exact hs f ((List.eraseIdx_sublist _ _).subset hf)
  · intro f hf
    simp [clearFiles] at hf
  · intro f hf
    simp [initialAppState] at hf
  · intro f
    simp [isValidFile, Bool.and_eq_true, decide_eq_true_eq]

/-- C9 witness: starting from a state holding one valid file, adding a
too-large file and a file with an unknown extension changes nothing and
shows the error; all stored files stay valid; `notes.pdf` of 1000 bytes is
valid. -/
theorem claim9_witness :
    ((addFiles oneFileState
        [{ name := "huge.pdf", size := 20 * 1024 * 1024 },
         { name := "image.png", size := 10 }]).1.files
      = oneFileState.files ++
        ([{ name := "huge.pdf", size := 20 * 1024 * 1024 },
          { name := "image.png", size := 10 }] : List FileInfo).filter
          isValidFile) ∧
    (([{ name := "huge.pdf", size := 20 * 1024 * 1024 },
       { name := "image.png", size := 10 }] : List FileInfo).filter
        isValidFile = [] →
      addFiles oneFileState
        [{ name := "huge.pdf", size := 20 * 1024 * 1024 },
         { name := "image.png", size := 10 }] = (oneFileState,
        [.error
          "Please select valid files (PDF, DOCX, TXT, DOC) under 10MB"])) ∧
    (∀ f ∈ (addFiles oneFileState
        [{ name := "huge.pdf", size := 20 * 1024 * 1024 },
         { name := "image.png", size := 10 }]).1.files,
      isValidFile f = true) ∧
    (∀ f ∈ (removeFile oneFileState 0).files, isValidFile f = true) ∧
    (∀ f ∈ (clearFiles oneFileState).files, isValidFile f = true) ∧
    (∀ f ∈ initialAppState.files, isValidFile f = true) ∧
    (∀ f : FileInfo, isValidFile f = true ↔
      (fileExtension f.name ∈ validExtensions ∧
        f.size ≤ 10 * 1024 * 1024)) :=
  claim9_file_invariant oneFileState
    [{ name := "huge.pdf", size := 20 * 1024 * 1024 },
     { name := "image.png", size := 10 }] 0 (by decide)

/-- C10: `saveAnswer` always stores the answer as a JS string — the checked
radio value or the text-input contents (conjuncts 1 and 2), preserving the
all-strings invariant of the answer map (conjunct 3) — and therefore the
saved-answer restore check of `displayQuestion` for `multiple_choice` and
`fill_in_the_blank` questions, the strict equality `savedAnswer === index`
between a string (or `undefined`) and the numeric option index, is false
for every option index: no option is re-rendered as checked (conjunct 4). -/
theorem claim10_restore_check_never_fires (s : AppState) (v : String)
    (p : PendingInput) (hs : allStringAnswers s.answers) :
    lookupAnswer (saveAnswer s (.radio v)).answers s.currentQuestionIndex
      = some (.str v) ∧
    lookupAnswer (saveAnswer s (.text v)).answers s.currentQuestionIndex
      = some (.str v) ∧
    allStringAnswers (saveAnswer s p).answers ∧
    (∀ i j : Nat, mcOptionChecked (lookupAnswer s.answers i) j = false) := by
  refine ⟨?_, ?_, ?_, ?_⟩
  · show lookupAnswer
      (setAnswer s.answers s.currentQuestionIndex (.str v)) _ = _
    rw [lookup_setAnswer_self]
  · show lookupAnswer
      (setAnswer s.answers s.currentQuestionIndex (.str v)) _ = _
    rw [lookup_setAnswer_self]
  · cases p with
    | radio w => exact allStringAnswers_setAnswer hs _ w
    | text w => exact allStringAnswers_setAnswer hs _ w
    | noInput => exact hs
  · intro i j
    cases hl : lookupAnswer s.answers i with
    | none => rfl
    | some w =>
        have hw : w.isStr = true := hs (i, w) (lookupAnswer_mem hl)
        cases w with
        | str t => rfl
        | num n => simp [JSValue.isStr] at hw

/-- C10 witness: in the prior state (answer `"1"` recorded at index 0, an
all-strings map), re-saving stores strings and the restore check is false
for the option indices of the multiple-choice question. -/
theorem claim10_witness :
    lookupAnswer (saveAnswer priorState (.radio "0")).answers
      priorState.currentQuestionIndex = some (.str "0") ∧
    lookupAnswer (saveAnswer priorState (.text "0")).answers
      priorState.currentQuestionIndex = some (.str "0") ∧
    allStringAnswers (saveAnswer priorState .noInput).answers ∧
    (∀ i j : Nat,
      mcOptionChecked (lookupAnswer priorState.answers i) j = false) :=
  claim10_restore_check_never_fires priorState "0" .noInput (by decide)

end QuizGen
